import Mathlib

/-!
Verification of the pandapipes per-branch physics kernel
(`pandapipes/component_models/abstract_models/branch_models.py`).

The numeric state tables (node pit, branch pit) are embedded as lists of
records with one field per column used by the kernel.  Floating point
numbers are modelled by rationals (exact field arithmetic); the external
friction-model and fluid-property adapters are modelled as function-valued
records, as the spec describes their interfaces.  The analytic-derivative
claims about the mean-pressure kernel are stated over the reals.
-/

namespace Pandapipes

/-- Modelled from the spec: the physical constants imported from
`pandapipes.constants` (module not under src/): normal pressure [bar],
normal temperature [K], bar-to-Pa conversion, gravitational acceleration. -/
def NORMAL_PRESSURE : ℚ := 101325 / 100000

/-- Modelled from the spec: normal temperature [K] from `pandapipes.constants`. -/
def NORMAL_TEMPERATURE : ℚ := 27315 / 100

/-- Modelled from the spec: bar-to-Pa conversion from `pandapipes.constants`. -/
def P_CONVERSION : ℚ := 100000

/-- Modelled from the spec: gravitational acceleration from `pandapipes.constants`. -/
def GRAVITATION_CONSTANT : ℚ := 981 / 100

/-- One row of the node pit: columns PINIT, PAMB, TINIT, HEIGHT
(`pandapipes.idx_node`). -/
structure NodeRow where
  pinit : ℚ
  pamb : ℚ
  tinit : ℚ
  height : ℚ

instance : Inhabited NodeRow := ⟨⟨0, 0, 0, 0⟩⟩

/-- One row of the branch pit: the columns of `pandapipes.idx_branch` read or
written by `branch_models.py` (column 0 is the branch-table number). -/
structure BranchRow where
  tableIdx : ℚ
  elementIdx : ℚ
  fromNode : ℕ
  toNode : ℕ
  length : ℚ
  d : ℚ
  k : ℚ
  area : ℚ
  rho : ℚ
  eta : ℚ
  vinit : ℚ
  re : ℚ
  lambda_pipe : ℚ
  lossCoef : ℚ
  pl : ℚ
  tl : ℚ
  tinit : ℚ
  cp : ℚ
  vinitT : ℚ
  fromNodeT : ℕ
  tOut : ℚ
  text : ℚ
  alpha : ℚ
  qext : ℚ
  loadVecBranches : ℚ
  jacDerivDv : ℚ
  jacDerivDp : ℚ
  jacDerivDp1 : ℚ
  jacDerivDvNode : ℚ
  loadVecNodes : ℚ
  loadVecBranchesT : ℚ
  jacDerivDt : ℚ
  jacDerivDt1 : ℚ
  jacDerivDtNode : ℚ
  loadVecNodesT : ℚ

/-- Modelled from the spec: the Fluid-Property Adapter
(`pandapipes.properties.fluids`, not under src/): compressibility lookup,
its pressure derivative (locally constant), density lookup and gas flag. -/
structure Fluid where
  isGas : Bool
  compressibility : ℚ → ℚ
  derCompressibility : ℚ
  density : ℚ → ℚ

/-- Modelled from the spec: the Friction-Model Adapter
(`pandapipes.pf.derivative_toolbox`, not under src/): `calc_lambda` takes
velocity, viscosity, density, diameter, roughness and the zero-length flag
and returns the friction factor and the Reynolds number; `calc_der_lambda`
takes velocity, viscosity, density, diameter, roughness and the friction
factor and returns the velocity derivative of the friction factor. -/
structure FrictionModel where
  calcLambda : ℚ → ℚ → ℚ → ℚ → ℚ → ℚ → ℚ × ℚ
  calcDerLambda : ℚ → ℚ → ℚ → ℚ → ℚ → ℚ → ℚ

/-- A friction model returning constant values, used to feed a prescribed
friction factor and derivative into the engines. -/
def constFrictionModel (lam re derLam : ℚ) : FrictionModel :=
  ⟨fun _ _ _ _ _ _ => (lam, re), fun _ _ _ _ _ _ => derLam⟩

/-- Loop body of `calc_medium_pressure_with_derivative` (branch_models.py,
lines 437-446): per branch, the flow-weighted mean pressure and its two
endpoint-pressure derivatives; the initialisation `p_m = p_i`,
`der_p_m = 1`, `der_p_m1 = -1` is kept whenever `p_i = p_i1`. -/
def calc_medium_pressure_branch (p_init_i_abs p_init_i1_abs : ℚ) : ℚ × ℚ × ℚ :=
  if p_init_i_abs ≠ p_init_i1_abs then
    ((2 / 3) * (p_init_i_abs ^ 3 - p_init_i1_abs ^ 3) * (1 / (p_init_i_abs ^ 2 - p_init_i1_abs ^ 2)),
     (3 * p_init_i_abs ^ 2 * (p_init_i_abs ^ 2 - p_init_i1_abs ^ 2)
        - 2 * p_init_i_abs * (p_init_i_abs ^ 3 - p_init_i1_abs ^ 3))
       * (1 / (p_init_i_abs ^ 2 - p_init_i1_abs ^ 2)) ^ 2 * (2 / 3),
     (-3 * p_init_i1_abs ^ 2 * (p_init_i_abs ^ 2 - p_init_i1_abs ^ 2)
        + 2 * p_init_i1_abs * (p_init_i_abs ^ 3 - p_init_i1_abs ^ 3))
       * (1 / (p_init_i_abs ^ 2 - p_init_i1_abs ^ 2)) ^ 2 * (2 / 3))
  else (p_init_i_abs, 1, -1)

/-- `calc_medium_pressure_with_derivative` (branch_models.py, lines 431-447):
the element-wise loop over the batch of endpoint absolute pressures. -/
def calc_medium_pressure_with_derivative : List ℚ → List ℚ → List ℚ × List ℚ × List ℚ
  | p :: ps, q :: qs =>
    let r := calc_medium_pressure_branch p q
    let rest := calc_medium_pressure_with_derivative ps qs
    (r.1 :: rest.1, r.2.1 :: rest.2.1, r.2.2 :: rest.2.2)
  | _, _ => ([], [], [])

lemma calc_medium_pressure_get (ps qs : List ℚ) (i : ℕ) (p q : ℚ)
    (hp : ps[i]? = some p) (hq : qs[i]? = some q) :
    (calc_medium_pressure_with_derivative ps qs).1[i]?
        = some (calc_medium_pressure_branch p q).1 ∧
      (calc_medium_pressure_with_derivative ps qs).2.1[i]?
        = some (calc_medium_pressure_branch p q).2.1 ∧
      (calc_medium_pressure_with_derivative ps qs).2.2[i]?
        = some (calc_medium_pressure_branch p q).2.2 := by
  induction ps generalizing qs i with
  | nil => simp at hp
  | cons a as ih =>
    cases qs with
    | nil => simp at hq
    | cons b bs =>
      cases i with
      | zero =>
        simp at hp hq
        subst hp; subst hq
        simp [calc_medium_pressure_with_derivative]
      | succ j =>
        simp at hp hq
        simpa [calc_medium_pressure_with_derivative] using ih bs j hp hq

lemma sq_sub_sq_ne_zero (p q : ℚ) (hne : p ≠ q) (hp : 0 ≤ p) (hq : 0 ≤ q) :
    ((p : ℝ) ^ 2 - (q : ℝ) ^ 2) ≠ 0 := by
  have hne' : (p : ℝ) ≠ (q : ℝ) := by exact_mod_cast hne
  have hp' : (0 : ℝ) ≤ (p : ℝ) := by exact_mod_cast hp
  have hq' : (0 : ℝ) ≤ (q : ℝ) := by exact_mod_cast hq
  have hsum : (p : ℝ) + (q : ℝ) ≠ 0 := by
    intro hs
    exact hne' (by linarith)
  have hfac : (p : ℝ) ^ 2 - (q : ℝ) ^ 2 = ((p : ℝ) - q) * ((p : ℝ) + q) := by ring
  rw [hfac]
  exact mul_ne_zero (sub_ne_zero.mpr hne') hsum

lemma hasDerivAt_mp_fst (c x : ℝ) (hD : x ^ 2 - c ^ 2 ≠ 0) :
    HasDerivAt (fun t : ℝ => 2 / 3 * (t ^ 3 - c ^ 3) / (t ^ 2 - c ^ 2))
      ((3 * x ^ 2 * (x ^ 2 - c ^ 2) - 2 * x * (x ^ 3 - c ^ 3))
        * (1 / (x ^ 2 - c ^ 2)) ^ 2 * (2 / 3)) x := by
  have hnum : HasDerivAt (fun t : ℝ => 2 / 3 * (t ^ 3 - c ^ 3)) (2 / 3 * (3 * x ^ 2)) x := by
    have h := ((hasDerivAt_pow 3 x).sub_const (c ^ 3)).const_mul ((2 : ℝ) / 3)
    convert h using 1 <;> norm_num
  have hden : HasDerivAt (fun t : ℝ => t ^ 2 - c ^ 2) (2 * x) x := by
    have h := (hasDerivAt_pow 2 x).sub_const (c ^ 2)
    convert h using 1 <;> norm_num
  have h := hnum.div hden hD
  convert h using 1
  field_simp
  ring

lemma hasDerivAt_mp_snd (p y : ℝ) (hD : p ^ 2 - y ^ 2 ≠ 0) :
    HasDerivAt (fun t : ℝ => 2 / 3 * (p ^ 3 - t ^ 3) / (p ^ 2 - t ^ 2))
      ((-3 * y ^ 2 * (p ^ 2 - y ^ 2) + 2 * y * (p ^ 3 - y ^ 3))
        * (1 / (p ^ 2 - y ^ 2)) ^ 2 * (2 / 3)) y := by
  have hnum : HasDerivAt (fun t : ℝ => 2 / 3 * (p ^ 3 - t ^ 3)) (2 / 3 * (-(3 * y ^ 2))) y := by
    have h := ((hasDerivAt_pow 3 y).const_sub (p ^ 3)).const_mul ((2 : ℝ) / 3)
    convert h using 1 <;> norm_num
  have hden : HasDerivAt (fun t : ℝ => p ^ 2 - t ^ 2) (-(2 * y)) y := by
    have h := (hasDerivAt_pow 2 y).const_sub (p ^ 2)
    convert h using 1 <;> norm_num
  have h := hnum.div hden hD
  convert h using 1
  field_simp
  ring

/-- Claim C1: per branch `i`, `calc_medium_pressure_with_derivative` returns
`p_m = (2/3)·(p_i³ − p_i1³)/(p_i² − p_i1²)` with the two returned derivative
entries equal to the analytic partial derivatives of that closed form
whenever `p_i ≠ p_i1`, and exactly `p_m = p_i`, `∂p_m/∂p_i = 1`,
`∂p_m/∂p_i1 = −1` whenever `p_i = p_i1`; the degenerate case is decided
element-wise, so a batch mixing equal and unequal endpoint pairs gets the
limit values exactly at the equal pairs. -/
theorem mean_pressure_kernel_correct
    (ps ps1 : List ℚ) (i : ℕ) (p p1 : ℚ)
    (hp : ps[i]? = some p) (hp1 : ps1[i]? = some p1)
    (hp0 : 0 ≤ p) (hp10 : 0 ≤ p1) :
    (p = p1 →
      (calc_medium_pressure_with_derivative ps ps1).1[i]? = some p ∧
      (calc_medium_pressure_with_derivative ps ps1).2.1[i]? = some 1 ∧
      (calc_medium_pressure_with_derivative ps ps1).2.2[i]? = some (-1)) ∧
    (p ≠ p1 →
      (calc_medium_pressure_with_derivative ps ps1).1[i]?
          = some (2 / 3 * (p ^ 3 - p1 ^ 3) / (p ^ 2 - p1 ^ 2)) ∧
      ∃ dm dm1 : ℚ,
        (calc_medium_pressure_with_derivative ps ps1).2.1[i]? = some dm ∧
        (calc_medium_pressure_with_derivative ps ps1).2.2[i]? = some dm1 ∧
        HasDerivAt (fun x : ℝ => 2 / 3 * (x ^ 3 - (p1 : ℝ) ^ 3) / (x ^ 2 - (p1 : ℝ) ^ 2))
          (dm : ℝ) (p : ℝ) ∧
        HasDerivAt (fun y : ℝ => 2 / 3 * ((p : ℝ) ^ 3 - y ^ 3) / ((p : ℝ) ^ 2 - y ^ 2))
          (dm1 : ℝ) (p1 : ℝ)) := by
  obtain ⟨h1, h2, h3⟩ := calc_medium_pressure_get ps ps1 i p p1 hp hp1
  constructor
  · intro heq
    subst heq
    simp [calc_medium_pressure_branch] at h1 h2 h3
    exact ⟨h1, h2, h3⟩
  · intro hne
    have hD : ((p : ℝ) ^ 2 - (p1 : ℝ) ^ 2) ≠ 0 := sq_sub_sq_ne_zero p p1 hne hp0 hp10
    refine ⟨?_, (calc_medium_pressure_branch p p1).2.1,
        (calc_medium_pressure_branch p p1).2.2, h2, h3, ?_, ?_⟩
    · rw [h1]
      congr 1
      simp only [calc_medium_pressure_branch, if_pos hne]
      field_simp
    · have hcast : ((calc_medium_pressure_branch p p1).2.1 : ℝ)
          = (3 * (p : ℝ) ^ 2 * ((p : ℝ) ^ 2 - (p1 : ℝ) ^ 2)
              - 2 * (p : ℝ) * ((p : ℝ) ^ 3 - (p1 : ℝ) ^ 3))
            * (1 / ((p : ℝ) ^ 2 - (p1 : ℝ) ^ 2)) ^ 2 * (2 / 3) := by
        simp only [calc_medium_pressure_branch, if_pos hne]
        push_cast
        ring
      rw [hcast]
      exact hasDerivAt_mp_fst (p1 : ℝ) (p : ℝ) hD
    · have hcast : ((calc_medium_pressure_branch p p1).2.2 : ℝ)
          = (-3 * (p1 : ℝ) ^ 2 * ((p : ℝ) ^ 2 - (p1 : ℝ) ^ 2)
              + 2 * (p1 : ℝ) * ((p : ℝ) ^ 3 - (p1 : ℝ) ^ 3))
            * (1 / ((p : ℝ) ^ 2 - (p1 : ℝ) ^ 2)) ^ 2 * (2 / 3) := by
        simp only [calc_medium_pressure_branch, if_pos hne]
        push_cast
        ring
      rw [hcast]
      exact hasDerivAt_mp_snd (p : ℝ) (p1 : ℝ) hD

/-- Witness for C1: a batch mixing an equal pair (index 0) and an unequal
pair (index 1) gets the limit values exactly at the equal pair, and the
closed form with genuine analytic derivatives at the unequal pair. -/
theorem mean_pressure_kernel_correct_witness :
    ((calc_medium_pressure_with_derivative [5, 10] [5, 6]).1[0]? = some 5 ∧
     (calc_medium_pressure_with_derivative [5, 10] [5, 6]).2.1[0]? = some 1 ∧
     (calc_medium_pressure_with_derivative [5, 10] [5, 6]).2.2[0]? = some (-1 : ℚ)) ∧
    ((calc_medium_pressure_with_derivative [5, 10] [5, 6]).1[1]?
        = some (2 / 3 * ((10 : ℚ) ^ 3 - 6 ^ 3) / (10 ^ 2 - 6 ^ 2)) ∧
     ∃ dm dm1 : ℚ,
       (calc_medium_pressure_with_derivative [5, 10] [5, 6]).2.1[1]? = some dm ∧
       (calc_medium_pressure_with_derivative [5, 10] [5, 6]).2.2[1]? = some dm1 ∧
       HasDerivAt (fun x : ℝ => 2 / 3 * (x ^ 3 - ((6 : ℚ) : ℝ) ^ 3) / (x ^ 2 - ((6 : ℚ) : ℝ) ^ 2))
         (dm : ℝ) ((10 : ℚ) : ℝ) ∧
       HasDerivAt (fun y : ℝ => 2 / 3 * (((10 : ℚ) : ℝ) ^ 3 - y ^ 3) / (((10 : ℚ) : ℝ) ^ 2 - y ^ 2))
         (dm1 : ℝ) (((6 : ℚ)) : ℝ)) := by
  constructor
  · exact (mean_pressure_kernel_correct [5, 10] [5, 6] 0 5 5 rfl rfl (by norm_num)
      (by norm_num)).1 rfl
  · exact (mean_pressure_kernel_correct [5, 10] [5, 6] 1 10 6 rfl rfl (by norm_num)
      (by norm_num)).2 (by norm_num)

/-- The six per-branch outputs of the scalar hydraulic derivative loops,
in the order returned by the source functions. -/
structure HydDeriv where
  load_vec : ℚ
  load_vec_nodes : ℚ
  df_dv : ℚ
  df_dv_nodes : ℚ
  df_dp : ℚ
  df_dp1 : ℚ

/-- Loop body of `derivatives_hydraulic_incomp` (branch_models.py, lines
461-474): incompressible momentum residual, its partials and the
node-mass-coupling terms for one branch.  The friction factor is read from
the branch row (`LAMBDA` column); `der_lambda`, the endpoint absolute
pressures and the height difference are passed in by the caller. -/
def derivatives_hydraulic_incomp_branch (b : BranchRow)
    (der_lambda p_init_i_abs p_init_i1_abs height_difference : ℚ) : HydDeriv :=
  let v_init_abs := |b.vinit|
  let v_init2 := v_init_abs * b.vinit
  let lambda_term := b.length * b.lambda_pipe / b.d + b.lossCoef
  let const_p_term := b.rho / (P_CONVERSION * 2)
  let df_dv := const_p_term * (2 * v_init_abs * lambda_term
      + der_lambda * (b.length / b.d) * v_init2)
  let load_vec := p_init_i_abs - p_init_i1_abs + b.pl
      + const_p_term * (GRAVITATION_CONSTANT * 2 * height_difference - v_init2 * lambda_term)
  let mass_flow_dv := b.rho * b.area
  ⟨load_vec, mass_flow_dv * b.vinit, df_dv, mass_flow_dv, -1, 1⟩

/-- Loop body of `derivatives_hydraulic_comp` (branch_models.py, lines
491-519): compressible momentum residual, its partials and the
node-mass-coupling terms for one branch.  The friction factor, its velocity
derivative, the endpoint absolute pressures, the height difference, the
compressibility factor and the two chain-rule compressibility derivatives
are passed in by the caller. -/
def derivatives_hydraulic_comp_branch (b : BranchRow)
    (lambda_ der_lambda p_init_i_abs p_init_i1_abs height_difference
      comp_fact der_comp der_comp1 : ℚ) : HydDeriv :=
  let v_init_abs := |b.vinit|
  let v_init2 := b.vinit * v_init_abs
  let p_diff := p_init_i_abs - p_init_i1_abs
  let p_sum := p_init_i_abs + p_init_i1_abs
  let p_sum_div := 1 / p_sum
  let const_lambda := NORMAL_PRESSURE * b.rho * b.tinit / (NORMAL_TEMPERATURE * P_CONVERSION)
  let const_height := b.rho * NORMAL_TEMPERATURE * GRAVITATION_CONSTANT * height_difference
      / (2 * NORMAL_PRESSURE * b.tinit * P_CONVERSION)
  let friction_term := lambda_ * b.length / b.d + b.lossCoef
  let load_vec := p_diff + b.pl + const_height * p_sum
      - const_lambda * comp_fact * v_init2 * friction_term * p_sum_div
  let p_deriv := const_lambda * v_init2 * friction_term * p_sum_div
  let df_dp := -1 - p_deriv * (der_comp - comp_fact * p_sum_div) + const_height
  let df_dp1 := 1 - p_deriv * (der_comp1 - comp_fact * p_sum_div) + const_height
  let df_dv := 2 * const_lambda * comp_fact / p_sum * v_init_abs * friction_term
      + const_lambda * comp_fact * der_lambda * b.length * v_init2 / (p_sum * b.d)
  let mass_flow_dv := b.rho * b.area
  ⟨load_vec, mass_flow_dv * b.vinit, df_dv, mass_flow_dv, df_dp, df_dp1⟩

/-- Gas branch of the module-level `calculate_derivatives_hydraulic`
(branch_models.py, lines 413-419), per branch: mean pressure and its
derivatives from the kernel, compressibility factor looked up at the mean
pressure, chain-rule compressibility derivatives, then the scalar
compressible loop. -/
def hydraulic_comp_from_driver (fluid : Fluid) (b : BranchRow)
    (lambda_ der_lambda p_init_i_abs p_init_i1_abs height_difference : ℚ) : HydDeriv :=
  let mp := calc_medium_pressure_branch p_init_i_abs p_init_i1_abs
  let comp_fact := fluid.compressibility mp.1
  let der_comp := fluid.derCompressibility * mp.2.1
  let der_comp1 := fluid.derCompressibility * mp.2.2
  derivatives_hydraulic_comp_branch b lambda_ der_lambda p_init_i_abs p_init_i1_abs
    height_difference comp_fact der_comp der_comp1

namespace BranchComponent

/-- Per-branch body of the class method
`BranchComponent.calculate_derivatives_hydraulic` (branch_models.py, lines
127-213): reads node state through the from/to indices, updates `TINIT`,
`RE`, `LAMBDA` and `PL`, writes the residual and Jacobian slots (branching
on gas mode) and the node-mass-coupling slots.  The pressure-lift hook is a
pure function of the node table and the branch row. -/
def hydraulic_row (fluid : Fluid) (fm : FrictionModel) (node_pit : List NodeRow)
    (plHook : List NodeRow → BranchRow → ℚ) (b : BranchRow) : BranchRow :=
  let fromN := node_pit.getD b.fromNode default
  let toN := node_pit.getD b.toNode default
  let t_init := (fromN.tinit + toN.tinit) / 2
  let v_init := b.vinit
  let p_init_i_abs := fromN.pinit + fromN.pamb
  let p_init_i1_abs := toN.pinit + toN.pamb
  let v_init2 := v_init * |v_init|
  let height_difference := fromN.height - toN.height
  let dummy : ℚ := if b.length ≠ 0 then 1 else 0
  let lr := fm.calcLambda v_init b.eta b.rho b.d b.k dummy
  let lambda_pipe := lr.1
  let der_lambda_pipe := fm.calcDerLambda v_init b.eta b.rho b.d b.k lambda_pipe
  let pl := plHook node_pit b
  let b0 := { b with tinit := t_init, re := lr.2, lambda_pipe := lambda_pipe, pl := pl }
  let b1 :=
    if fluid.isGas = false then
      { b0 with
        jacDerivDv := b.rho / (P_CONVERSION * 2) * (b.length / b.d
            * (der_lambda_pipe * v_init2 + 2 * lambda_pipe * |v_init|)
          + 2 * b.lossCoef * |v_init|),
        loadVecBranches := -(-p_init_i_abs + p_init_i1_abs - pl
            - b.rho * GRAVITATION_CONSTANT * height_difference / P_CONVERSION
            + (b.length * lambda_pipe / b.d + b.lossCoef) / (P_CONVERSION * 2)
              * b.rho * v_init2),
        jacDerivDp := -1,
        jacDerivDp1 := 1 }
    else
      let p_m := if p_init_i_abs ≠ p_init_i1_abs then
          2 / 3 * (p_init_i_abs ^ 3 - p_init_i1_abs ^ 3)
            / (p_init_i_abs ^ 2 - p_init_i1_abs ^ 2)
        else p_init_i_abs
      let comp_fact := fluid.compressibility p_m
      let const_lambda := NORMAL_PRESSURE * b.rho * comp_fact * t_init
          / (NORMAL_TEMPERATURE * P_CONVERSION)
      let const_height := b.rho * NORMAL_TEMPERATURE
          / (2 * NORMAL_PRESSURE * t_init * P_CONVERSION)
      { b0 with
        loadVecBranches := -(-p_init_i_abs + p_init_i1_abs - pl
            + const_lambda * v_init2 * (lambda_pipe * b.length / b.d + b.lossCoef)
              * (p_init_i_abs + p_init_i1_abs)⁻¹
            - const_height * (p_init_i_abs + p_init_i1_abs) * GRAVITATION_CONSTANT
              * height_difference),
        jacDerivDp := -1 - const_lambda * v_init2
              * (lambda_pipe * b.length / b.d + b.lossCoef)
              * (p_init_i_abs + p_init_i1_abs)⁻¹ ^ 2
            - const_height * GRAVITATION_CONSTANT * height_difference,
        jacDerivDp1 := 1 - const_lambda * v_init2
              * (lambda_pipe * b.length / b.d + b.lossCoef)
              * (p_init_i_abs + p_init_i1_abs)⁻¹ ^ 2
            - const_height * GRAVITATION_CONSTANT * height_difference,
        jacDerivDv := 2 * const_lambda * (p_init_i_abs + p_init_i1_abs)⁻¹
              * |v_init| * lambda_pipe * b.length / b.d
            + const_lambda * (p_init_i_abs + p_init_i1_abs)⁻¹ * v_init2
              * der_lambda_pipe * b.length / b.d
            + 2 * const_lambda * (p_init_i_abs + p_init_i1_abs)⁻¹ * |v_init|
              * b.lossCoef }
  { b1 with jacDerivDvNode := b.rho * b.area, loadVecNodes := b.rho * b.area * b.vinit }

/-- `BranchComponent.calculate_derivatives_hydraulic` (branch_models.py,
lines 107-213) on a branch-kind row range, as explicit state passing: the
empty range returns immediately, otherwise every branch row is updated;
the node table is threaded through unchanged (the source never writes it). -/
def calculate_derivatives_hydraulic (fluid : Fluid) (fm : FrictionModel)
    (node_pit : List NodeRow) (plHook : List NodeRow → BranchRow → ℚ)
    (branch_component_pit : List BranchRow) : List NodeRow × List BranchRow :=
  if branch_component_pit.isEmpty then (node_pit, branch_component_pit)
  else (node_pit, branch_component_pit.map (hydraulic_row fluid fm node_pit plHook))

end BranchComponent

/-- Claim C3: for every incompressible branch, the hydraulic residual
written to `LOAD_VEC_BRANCHES` equals
`p_from_abs − p_to_abs + pressure_lift + (ρ/(2·Pconv))·(2·g·Δheight − v·|v|·F)`
with `F = length·λ/diameter + loss_coef`, and the pressure partials are
exactly `∂/∂p_from = −1`, `∂/∂p_to = +1` — both for the scalar-loop
function `derivatives_hydraulic_incomp` and for the non-gas branch of the
class method; with zero velocity and zero height difference the residual
reduces to `p_from_abs − p_to_abs + pressure_lift`. -/
theorem incomp_hydraulic_residual_spec
    (b : BranchRow) (der_lambda p_init_i_abs p_init_i1_abs height_difference : ℚ)
    (fluid : Fluid) (n0 n1 : NodeRow) (lam re0 : ℚ)
    (plHook : List NodeRow → BranchRow → ℚ) :
    (derivatives_hydraulic_incomp_branch b der_lambda p_init_i_abs p_init_i1_abs
        height_difference).load_vec
      = p_init_i_abs - p_init_i1_abs + b.pl
        + b.rho / (2 * P_CONVERSION)
          * (2 * GRAVITATION_CONSTANT * height_difference
            - b.vinit * |b.vinit| * (b.length * b.lambda_pipe / b.d + b.lossCoef)) ∧
    (derivatives_hydraulic_incomp_branch b der_lambda p_init_i_abs p_init_i1_abs
        height_difference).df_dp = -1 ∧
    (derivatives_hydraulic_incomp_branch b der_lambda p_init_i_abs p_init_i1_abs
        height_difference).df_dp1 = 1 ∧
    (derivatives_hydraulic_incomp_branch { b with vinit := 0 } der_lambda p_init_i_abs
        p_init_i1_abs 0).load_vec = p_init_i_abs - p_init_i1_abs + b.pl ∧
    (BranchComponent.hydraulic_row { fluid with isGas := false }
        (constFrictionModel lam re0 der_lambda) [n0, n1] plHook
        { b with fromNode := 0, toNode := 1 }).loadVecBranches
      = (n0.pinit + n0.pamb) - (n1.pinit + n1.pamb)
        + plHook [n0, n1] { b with fromNode := 0, toNode := 1 }
        + b.rho / (2 * P_CONVERSION)
          * (2 * GRAVITATION_CONSTANT * (n0.height - n1.height)
            - b.vinit * |b.vinit| * (b.length * lam / b.d + b.lossCoef)) ∧
    (BranchComponent.hydraulic_row { fluid with isGas := false }
        (constFrictionModel lam re0 der_lambda) [n0, n1] plHook
        { b with fromNode := 0, toNode := 1 }).jacDerivDp = -1 ∧
    (BranchComponent.hydraulic_row { fluid with isGas := false }
        (constFrictionModel lam re0 der_lambda) [n0, n1] plHook
        { b with fromNode := 0, toNode := 1 }).jacDerivDp1 = 1 := by
  refine ⟨?_, rfl, rfl, ?_, ?_, ?_, ?_⟩
  · simp only [derivatives_hydraulic_incomp_branch]
    ring
  · simp [derivatives_hydraulic_incomp_branch]
  · simp only [BranchComponent.hydraulic_row, constFrictionModel]
    simp
    ring
  · simp only [BranchComponent.hydraulic_row, constFrictionModel]
    simp
  · simp only [BranchComponent.hydraulic_row, constFrictionModel]
    simp

/-- Claim C6: a hydraulic derivative pass writes the node-mass-coupling
slots `JAC_DERIV_DV_NODE = ρ·area` and `LOAD_VEC_NODES = ρ·area·v` for every
branch it processes (class method and both scalar loops), and leaves the
node-state table unchanged — the pressure-lift hook is a pure function of
the tables, so it cannot mutate node state. -/
theorem hydraulic_pass_node_frame
    (fluid : Fluid) (fm : FrictionModel) (node_pit : List NodeRow)
    (plHook : List NodeRow → BranchRow → ℚ) (branch_component_pit : List BranchRow) :
    (BranchComponent.calculate_derivatives_hydraulic fluid fm node_pit plHook
        branch_component_pit).1 = node_pit ∧
    (∀ b : BranchRow,
      (BranchComponent.hydraulic_row fluid fm node_pit plHook b).jacDerivDvNode
          = b.rho * b.area ∧
      (BranchComponent.hydraulic_row fluid fm node_pit plHook b).loadVecNodes
          = b.rho * b.area * b.vinit) ∧
    (∀ (b : BranchRow) (dl pa pa1 hd : ℚ),
      (derivatives_hydraulic_incomp_branch b dl pa pa1 hd).df_dv_nodes = b.rho * b.area ∧
      (derivatives_hydraulic_incomp_branch b dl pa pa1 hd).load_vec_nodes
          = b.rho * b.area * b.vinit) ∧
    (∀ (b : BranchRow) (lam dl pa pa1 hd cf dc dc1 : ℚ),
      (derivatives_hydraulic_comp_branch b lam dl pa pa1 hd cf dc dc1).df_dv_nodes
          = b.rho * b.area ∧
      (derivatives_hydraulic_comp_branch b lam dl pa pa1 hd cf dc dc1).load_vec_nodes
          = b.rho * b.area * b.vinit) := by
  refine ⟨?_, fun b => ⟨rfl, rfl⟩, fun b dl pa pa1 hd => ⟨rfl, rfl⟩,
    fun b lam dl pa pa1 hd cf dc dc1 => ⟨rfl, rfl⟩⟩
  unfold BranchComponent.calculate_derivatives_hydraulic
  split <;> rfl

/-- A branch row whose column 0 holds the branch-table number and all other
columns hold zero, as written by `create_pit_branch_entries` before the
velocity default is set. -/
def zero_branch_row (branch_table_nr : ℚ) : BranchRow :=
  ⟨branch_table_nr, 0, 0, 0, 0, 0, 0, 0, 0, 0, 0, 0, 0, 0, 0, 0, 0, 0,
    0, 0, 0, 0, 0, 0, 0, 0, 0, 0, 0, 0, 0, 0, 0, 0, 0⟩

/-- A concrete branch row used in the countering evaluations: unit velocity,
density, temperature, length, diameter and area, endpoints 0 and 1. -/
def cbranch : BranchRow :=
  { zero_branch_row 0 with
    toNode := 1, vinit := 1, rho := 1, tinit := 1,
    length := 1, d := 1, area := 1 }

/-- Counterexample to claim C2: with identical inputs (unit velocity,
density, temperature, geometry, friction factor 1 with zero derivative,
endpoint absolute pressures 2 and 1, zero height difference, constant
compressibility 1 with zero pressure derivative), the gas branch of the
class method and the scalar-loop function `derivatives_hydraulic_comp`
disagree on both pressure Jacobian slots `JAC_DERIV_DP` and
`JAC_DERIV_DP1`. -/
theorem gas_formulations_counterexample :
    (BranchComponent.hydraulic_row ⟨true, fun _ => 1, 0, fun t => t⟩
        (constFrictionModel 1 0 0) [⟨2, 0, 1, 0⟩, ⟨1, 0, 1, 0⟩]
        (fun _ _ => 0) cbranch).jacDerivDp
      ≠ (hydraulic_comp_from_driver ⟨true, fun _ => 1, 0, fun t => t⟩
          cbranch 1 0 2 1 0).df_dp ∧
    (BranchComponent.hydraulic_row ⟨true, fun _ => 1, 0, fun t => t⟩
        (constFrictionModel 1 0 0) [⟨2, 0, 1, 0⟩, ⟨1, 0, 1, 0⟩]
        (fun _ _ => 0) cbranch).jacDerivDp1
      ≠ (hydraulic_comp_from_driver ⟨true, fun _ => 1, 0, fun t => t⟩
          cbranch 1 0 2 1 0).df_dp1 := by
  constructor <;> norm_num [BranchComponent.hydraulic_row, hydraulic_comp_from_driver,
    derivatives_hydraulic_comp_branch, calc_medium_pressure_branch, constFrictionModel,
    cbranch, zero_branch_row, NORMAL_PRESSURE, NORMAL_TEMPERATURE, P_CONVERSION,
    GRAVITATION_CONSTANT]

/-- Claim C2 amended: with identical inputs and the same compressibility
values, the gas branch of the class method and the scalar-loop function
`derivatives_hydraulic_comp` write equal values into the residual
(`LOAD_VEC_BRANCHES`), the velocity Jacobian slot (`JAC_DERIV_DV`) and the
node-mass-coupling slots — but not, in general, into `JAC_DERIV_DP` and
`JAC_DERIV_DP1` (see the counterexample). -/
theorem gas_formulations_agree_residual_dv
    (fluid : Fluid) (n0 n1 : NodeRow) (b : BranchRow) (lam re0 der_lambda : ℚ)
    (plHook : List NodeRow → BranchRow → ℚ) :
    (BranchComponent.hydraulic_row { fluid with isGas := true }
        (constFrictionModel lam re0 der_lambda) [n0, n1] plHook
        { b with fromNode := 0, toNode := 1 }).loadVecBranches
      = (hydraulic_comp_from_driver fluid
          { b with
            fromNode := 0, toNode := 1, tinit := (n0.tinit + n1.tinit) / 2,
            lambda_pipe := lam,
            pl := plHook [n0, n1] { b with fromNode := 0, toNode := 1 } }
          lam der_lambda (n0.pinit + n0.pamb) (n1.pinit + n1.pamb)
          (n0.height - n1.height)).load_vec ∧
    (BranchComponent.hydraulic_row { fluid with isGas := true }
        (constFrictionModel lam re0 der_lambda) [n0, n1] plHook
        { b with fromNode := 0, toNode := 1 }).jacDerivDv
      = (hydraulic_comp_from_driver fluid
          { b with
            fromNode := 0, toNode := 1, tinit := (n0.tinit + n1.tinit) / 2,
            lambda_pipe := lam,
            pl := plHook [n0, n1] { b with fromNode := 0, toNode := 1 } }
          lam der_lambda (n0.pinit + n0.pamb) (n1.pinit + n1.pamb)
          (n0.height - n1.height)).df_dv ∧
    (BranchComponent.hydraulic_row { fluid with isGas := true }
        (constFrictionModel lam re0 der_lambda) [n0, n1] plHook
        { b with fromNode := 0, toNode := 1 }).jacDerivDvNode
      = (hydraulic_comp_from_driver fluid
          { b with
            fromNode := 0, toNode := 1, tinit := (n0.tinit + n1.tinit) / 2,
            lambda_pipe := lam,
            pl := plHook [n0, n1] { b with fromNode := 0, toNode := 1 } }
          lam der_lambda (n0.pinit + n0.pamb) (n1.pinit + n1.pamb)
          (n0.height - n1.height)).df_dv_nodes ∧
    (BranchComponent.hydraulic_row { fluid with isGas := true }
        (constFrictionModel lam re0 der_lambda) [n0, n1] plHook
        { b with fromNode := 0, toNode := 1 }).loadVecNodes
      = (hydraulic_comp_from_driver fluid
          { b with
            fromNode := 0, toNode := 1, tinit := (n0.tinit + n1.tinit) / 2,
            lambda_pipe := lam,
            pl := plHook [n0, n1] { b with fromNode := 0, toNode := 1 } }
          lam der_lambda (n0.pinit + n0.pamb) (n1.pinit + n1.pamb)
          (n0.height - n1.height)).load_vec_nodes := by
  by_cases h : (n0.pinit + n0.pamb) = (n1.pinit + n1.pamb) <;>
    simp [BranchComponent.hydraulic_row, hydraulic_comp_from_driver,
      derivatives_hydraulic_comp_branch, calc_medium_pressure_branch,
      constFrictionModel, h, div_eq_mul_inv] <;>
    exact ⟨by ring, by ring⟩

/-- Counterexample to claim C4: in the module-level gas pipeline
(mean-pressure kernel, compressibility lookup, scalar compressible loop),
changing the compressibility pressure-derivative from 0 to 5 changes the
pressure partial `df_dp` but leaves the velocity partial `df_dv` unchanged,
although the mean-pressure derivative is nonzero there: the velocity partial
contains no `der_compressibility`-times-mean-pressure-derivative term. -/
theorem comp_driver_chain_rule_counterexample :
    (hydraulic_comp_from_driver ⟨true, fun q => q, 0, fun t => t⟩
        cbranch 1 0 2 1 0).df_dv
      = (hydraulic_comp_from_driver ⟨true, fun q => q, 5, fun t => t⟩
          cbranch 1 0 2 1 0).df_dv ∧
    (hydraulic_comp_from_driver ⟨true, fun q => q, 0, fun t => t⟩
        cbranch 1 0 2 1 0).df_dp
      ≠ (hydraulic_comp_from_driver ⟨true, fun q => q, 5, fun t => t⟩
          cbranch 1 0 2 1 0).df_dp ∧
    (calc_medium_pressure_branch 2 1).2.1 ≠ 0 := by
  refine ⟨?_, ?_, ?_⟩ <;>
    norm_num [hydraulic_comp_from_driver, derivatives_hydraulic_comp_branch,
      calc_medium_pressure_branch, cbranch, zero_branch_row, NORMAL_PRESSURE,
      NORMAL_TEMPERATURE, P_CONVERSION, GRAVITATION_CONSTANT]

/-- Claim C4 amended: in the module-level gas pipeline the residual is
evaluated at the kernel mean pressure with the looked-up compressibility
factor, and the two pressure partials include compressibility-factor
sensitivity via the chain rule — each is linear in the compressibility
pressure-derivative with slope `−p_deriv` times the corresponding
mean-pressure derivative; the velocity partial is independent of the
compressibility pressure-derivative. -/
theorem comp_driver_chain_rule
    (K : ℚ → ℚ) (dK dK2 : ℚ) (isg : Bool) (dens : ℚ → ℚ) (b : BranchRow)
    (lam der_lambda p_init_i_abs p_init_i1_abs height_difference : ℚ) :
    (hydraulic_comp_from_driver ⟨isg, K, dK, dens⟩ b lam der_lambda p_init_i_abs
        p_init_i1_abs height_difference).load_vec
      = (p_init_i_abs - p_init_i1_abs) + b.pl
        + (b.rho * NORMAL_TEMPERATURE * GRAVITATION_CONSTANT * height_difference
            / (2 * NORMAL_PRESSURE * b.tinit * P_CONVERSION))
          * (p_init_i_abs + p_init_i1_abs)
        - (NORMAL_PRESSURE * b.rho * b.tinit / (NORMAL_TEMPERATURE * P_CONVERSION))
          * K ((calc_medium_pressure_branch p_init_i_abs p_init_i1_abs).1)
          * (b.vinit * |b.vinit|) * (lam * b.length / b.d + b.lossCoef)
          * (1 / (p_init_i_abs + p_init_i1_abs)) ∧
    (hydraulic_comp_from_driver ⟨isg, K, dK, dens⟩ b lam der_lambda p_init_i_abs
        p_init_i1_abs height_difference).df_dp
      = (hydraulic_comp_from_driver ⟨isg, K, 0, dens⟩ b lam der_lambda p_init_i_abs
          p_init_i1_abs height_difference).df_dp
        - ((NORMAL_PRESSURE * b.rho * b.tinit / (NORMAL_TEMPERATURE * P_CONVERSION))
            * (b.vinit * |b.vinit|) * (lam * b.length / b.d + b.lossCoef)
            * (1 / (p_init_i_abs + p_init_i1_abs)))
          * (calc_medium_pressure_branch p_init_i_abs p_init_i1_abs).2.1 * dK ∧
    (hydraulic_comp_from_driver ⟨isg, K, dK, dens⟩ b lam der_lambda p_init_i_abs
        p_init_i1_abs height_difference).df_dp1
      = (hydraulic_comp_from_driver ⟨isg, K, 0, dens⟩ b lam der_lambda p_init_i_abs
          p_init_i1_abs height_difference).df_dp1
        - ((NORMAL_PRESSURE * b.rho * b.tinit / (NORMAL_TEMPERATURE * P_CONVERSION))
            * (b.vinit * |b.vinit|) * (lam * b.length / b.d + b.lossCoef)
            * (1 / (p_init_i_abs + p_init_i1_abs)))
          * (calc_medium_pressure_branch p_init_i_abs p_init_i1_abs).2.2 * dK ∧
    (hydraulic_comp_from_driver ⟨isg, K, dK, dens⟩ b lam der_lambda p_init_i_abs
        p_init_i1_abs height_difference).df_dv
      = (hydraulic_comp_from_driver ⟨isg, K, dK2, dens⟩ b lam der_lambda p_init_i_abs
          p_init_i1_abs height_difference).df_dv := by
  simp only [hydraulic_comp_from_driver, derivatives_hydraulic_comp_branch]
  refine ⟨by ring, by ring, by ring, by ring⟩

namespace BranchComponent

/-- Per-branch body of `BranchComponent.calculate_derivatives_thermal`
(branch_models.py, lines 232-258): energy residual, temperature partials
and node-energy-coupling slots.  `np.pi` is modelled by the parameter
`piv`; the temperature-lift hook is a pure function of the tables. -/
def calculate_derivatives_thermal_row (piv : ℚ) (node_pit : List NodeRow)
    (tlHook : List NodeRow → BranchRow → ℚ) (b : BranchRow) : BranchRow :=
  let t_init_i := (node_pit.getD b.fromNodeT default).tinit
  let t_init_i1 := b.tOut
  let alpha := b.alpha * piv * b.d
  let tl := tlHook node_pit b
  let t_m := (t_init_i1 + t_init_i) / 2
  { b with
    tl := tl,
    loadVecBranchesT := -(b.rho * b.area * b.cp * b.vinitT * (-t_init_i + t_init_i1 - tl)
        - alpha * (b.text - t_m) * b.length + b.qext),
    jacDerivDt := -(b.rho * b.area * b.cp * b.vinitT) + alpha / 2 * b.length,
    jacDerivDt1 := b.rho * b.area * b.cp * b.vinitT + alpha / 2 * b.length,
    jacDerivDtNode := b.rho * b.vinitT * b.area,
    loadVecNodesT := b.rho * b.vinitT * b.area * b.tOut }

end BranchComponent

/-- Claim C5: the thermal engine writes the energy residual
`−(ρ·area·cp·v·(T_out − T_in − temp_lift) − (α·perimeter)·(T_amb − T_mean)·length + Q_ext)`
with `T_mean = (T_in + T_out)/2` and `perimeter = π·diameter`, and the
temperature partials `∂/∂T_in = −ρ·area·cp·v + (α·perimeter·length)/2` and
`∂/∂T_out = +ρ·area·cp·v + (α·perimeter·length)/2`, whose sum is
`α·perimeter·length` independently of the sign of `v`. -/
theorem thermal_engine_spec (piv : ℚ) (node_pit : List NodeRow)
    (tlHook : List NodeRow → BranchRow → ℚ) (b : BranchRow) :
    (BranchComponent.calculate_derivatives_thermal_row piv node_pit tlHook b).loadVecBranchesT
      = -(b.rho * b.area * b.cp * b.vinitT
            * (b.tOut - (node_pit.getD b.fromNodeT default).tinit - tlHook node_pit b)
          - (b.alpha * (piv * b.d))
            * (b.text - ((node_pit.getD b.fromNodeT default).tinit + b.tOut) / 2) * b.length
          + b.qext) ∧
    (BranchComponent.calculate_derivatives_thermal_row piv node_pit tlHook b).jacDerivDt
      = -(b.rho * b.area * b.cp * b.vinitT) + (b.alpha * (piv * b.d)) * b.length / 2 ∧
    (BranchComponent.calculate_derivatives_thermal_row piv node_pit tlHook b).jacDerivDt1
      = b.rho * b.area * b.cp * b.vinitT + (b.alpha * (piv * b.d)) * b.length / 2 ∧
    (BranchComponent.calculate_derivatives_thermal_row piv node_pit tlHook b).jacDerivDt
        + (BranchComponent.calculate_derivatives_thermal_row piv node_pit tlHook b).jacDerivDt1
      = b.alpha * (piv * b.d) * b.length := by
  refine ⟨?_, ?_, ?_, ?_⟩ <;>
    simp only [BranchComponent.calculate_derivatives_thermal_row] <;> ring

/-- Modelled from the spec: the per-group summation of `_sum_by_group`
(`pandapipes.pf.internals_toolbox`, not under src/): the sum of the values
at the positions whose element-grouping key equals the queried key. -/
def sum_by_group : List ℚ → List ℚ → ℚ → ℚ
  | k0 :: ks, v0 :: vs, k => (if k0 = k then v0 else 0) + sum_by_group ks vs k
  | _, _, _ => 0

/-- Per-element aggregated value (branch_models.py, lines 340, 368-370):
group sum divided by the number of internal sub-branches of the group. -/
def group_mean (keys vals : List ℚ) (k : ℚ) : ℚ :=
  sum_by_group keys vals k / sum_by_group keys (keys.map fun _ => 1) k

/-- `mdot_from_kg_per_s` per logical element (branch_models.py, line 369). -/
def extract_mdot_from (keys mf : List ℚ) (k : ℚ) : ℚ := group_mean keys mf k

/-- `mdot_to_kg_per_s` per logical element (branch_models.py, line 368). -/
def extract_mdot_to (keys mf : List ℚ) (k : ℚ) : ℚ :=
  (-(sum_by_group keys mf k)) / sum_by_group keys (keys.map fun _ => 1) k

lemma sum_by_group_ones (keys : List ℚ) (k : ℚ) :
    sum_by_group keys (List.replicate keys.length 1) k = (keys.count k : ℚ) := by
  induction keys with
  | nil => simp [sum_by_group]
  | cons a as ih =>
    simp only [List.length_cons, List.replicate_succ, sum_by_group, List.count_cons, ih]
    by_cases h : a = k <;> simp [h] <;> push_cast <;> ring

/-- `normfactor_from` (branch_models.py, lines 346-348): the gas
standard-condition conversion factor at the from endpoint, from the ideal
gas relation with the compressibility factor looked up at the endpoint
absolute pressure. -/
def normfactor_from (fluid : Fluid) (t_branch p_from : ℚ) : ℚ :=
  NORMAL_PRESSURE * t_branch * fluid.compressibility p_from
    / (p_from * NORMAL_TEMPERATURE)

/-- `v_gas_from` (branch_models.py, line 351): gas standard-condition
velocity at the from endpoint. -/
def v_gas_from (fluid : Fluid) (t_branch p_from v_mps : ℚ) : ℚ :=
  v_mps * normfactor_from fluid t_branch p_from

/-- Claim C8: the extracted gas standard-condition velocity equals
`v·NORMAL_PRESSURE·T·K(p_abs)/(p_abs·NORMAL_TEMPERATURE)`; it factors as a
coefficient times the compressibility factor times `1/p_abs`, so at fixed
velocity and temperature it is linear in the compressibility factor
(a pointwise scaling of the factor scales it by the same constant) and
inversely proportional to the endpoint absolute pressure (scaling the
pressure by `a` divides it by `a`, at a fixed factor value). -/
theorem gas_normfactor_spec (fluid : Fluid) (t p v : ℚ) :
    v_gas_from fluid t p v
      = v * (NORMAL_PRESSURE * t * fluid.compressibility p / (p * NORMAL_TEMPERATURE)) ∧
    v_gas_from fluid t p v
      = (v * NORMAL_PRESSURE * t / NORMAL_TEMPERATURE) * fluid.compressibility p * (1 / p) ∧
    (∀ (c : ℚ) (K : ℚ → ℚ),
      v_gas_from ⟨fluid.isGas, fun q => c * K q, fluid.derCompressibility, fluid.density⟩ t p v
        = c * v_gas_from ⟨fluid.isGas, K, fluid.derCompressibility, fluid.density⟩ t p v) ∧
    (∀ a f : ℚ,
      v_gas_from ⟨fluid.isGas, fun _ => f, fluid.derCompressibility, fluid.density⟩ t (a * p) v
        = v_gas_from ⟨fluid.isGas, fun _ => f, fluid.derCompressibility, fluid.density⟩ t p v
          / a) := by
  refine ⟨?_, ?_, fun c K => ?_, fun a f => ?_⟩ <;>
    simp only [v_gas_from, normfactor_from] <;> ring

/-- A row of the per-element result table written by `extract_results`
(branch_models.py, lines 359-370); columns the source does not fill in the
current mode keep the neutral value 0. -/
structure ResultRow where
  v_from_m_per_s : ℚ
  v_to_m_per_s : ℚ
  normfactor_from : ℚ
  normfactor_to : ℚ
  mdot_from_kg_per_s : ℚ
  mdot_to_kg_per_s : ℚ
  vdot_norm_m3_per_s : ℚ

/-- Modelled from the spec: `select_from_pit`
(`pandapipes.pf.internals_toolbox`, not under src/): for each queried node
index, the data value at the first branch whose node-index column equals
it — endpoint selection, not aggregation. -/
def select_from_pit (node_idx : List ℕ) (queried : List ℕ) (data : List ℚ) : List ℚ :=
  queried.map (fun j =>
    match (node_idx.zip data).find? (fun pr => pr.1 == j) with
    | some pr => pr.2
    | none => 0)

namespace BranchComponent

/-- `BranchComponent.extract_results` (branch_models.py, lines 312-371),
reduced to its per-branch numeric core.  On an empty active branch table it
returns empty results at once (lines 318-319).  Otherwise, for each logical
element (its grouping key and its element-level from/to junction indices,
supplied by the external lookup layer): the mass-flow column is the group
sum of `LOAD_VEC_NODES` over the element's sub-branches divided by the
group segment count, the to-column its negation, and the volumetric-flow
column the group mean of mass flow over the density at the average endpoint
temperature; in gas mode the standard-condition velocity columns are filled
by `select_from_pit` endpoint selection of `v_gas` at the element's
junctions (lines 356-360), while the normfactor columns are group means
(lines 361-362). -/
def extract_results (fluid : Fluid) (node_pit : List NodeRow)
    (branch_pit : List BranchRow) (elements : List (ℚ × ℕ × ℕ)) : List ResultRow :=
  if branch_pit.isEmpty then []
  else
    let keys := branch_pit.map (fun b => b.elementIdx)
    let from_nodes := branch_pit.map (fun b => b.fromNode)
    let to_nodes := branch_pit.map (fun b => b.toNode)
    let mf := branch_pit.map (fun b => b.loadVecNodes)
    let vf := branch_pit.map (fun b => b.loadVecNodes
        / fluid.density (((node_pit.getD b.fromNode default).tinit
            + (node_pit.getD b.toNode default).tinit) / 2))
    let nf_from := branch_pit.map (fun b => normfactor_from fluid b.tinit
        ((node_pit.getD b.fromNode default).pamb + (node_pit.getD b.fromNode default).pinit))
    let nf_to := branch_pit.map (fun b => normfactor_from fluid b.tinit
        ((node_pit.getD b.toNode default).pamb + (node_pit.getD b.toNode default).pinit))
    let v_gas_f := branch_pit.map (fun b => v_gas_from fluid b.tinit
        ((node_pit.getD b.fromNode default).pamb + (node_pit.getD b.fromNode default).pinit)
        b.vinit)
    let v_gas_t := branch_pit.map (fun b => v_gas_from fluid b.tinit
        ((node_pit.getD b.toNode default).pamb + (node_pit.getD b.toNode default).pinit)
        b.vinit)
    elements.map (fun el =>
      let n := sum_by_group keys (List.replicate keys.length 1) el.1
      { v_from_m_per_s := if fluid.isGas
          then (select_from_pit from_nodes [el.2.1] v_gas_f).headD 0 else 0,
        v_to_m_per_s := if fluid.isGas
          then (select_from_pit to_nodes [el.2.2] v_gas_t).headD 0 else 0,
        normfactor_from := if fluid.isGas then sum_by_group keys nf_from el.1 / n else 0,
        normfactor_to := if fluid.isGas then sum_by_group keys nf_to el.1 / n else 0,
        mdot_from_kg_per_s := sum_by_group keys mf el.1 / n,
        mdot_to_kg_per_s := -(sum_by_group keys mf el.1) / n,
        vdot_norm_m3_per_s := sum_by_group keys vf el.1 / n })

end BranchComponent

lemma sum_by_group_ones_len (keys : List ℚ) (n : ℕ) (k : ℚ) (h : keys.length = n) :
    sum_by_group keys (List.replicate n 1) k = (keys.count k : ℚ) := by
  subst h
  exact sum_by_group_ones keys k

/-- A sub-branch of a logical element after a converged hydraulic pass:
its `LOAD_VEC_NODES` slot holds the mass flow `ρ·area·v`. -/
def segment_row (rho area v : ℚ) : BranchRow :=
  { zero_branch_row 0 with
    rho := rho, area := area, vinit := v, loadVecNodes := rho * area * v }

/-- Nodes of a two-segment series element with a pressure drop: absolute
pressures 3, 1, 1 at uniform temperature 1. -/
def exnode0 : NodeRow := ⟨3, 0, 1, 0⟩

/-- Middle node of the two-segment example. -/
def exnode1 : NodeRow := ⟨1, 0, 1, 0⟩

/-- End node of the two-segment example. -/
def exnode2 : NodeRow := ⟨1, 0, 1, 0⟩

/-- First sub-branch of the example element: junction 0 to internal node 1. -/
def exbranchA : BranchRow :=
  { zero_branch_row 0 with
    toNode := 1, vinit := 1, tinit := 1, rho := 1, area := 1, d := 1, length := 1 }

/-- Second sub-branch of the example element: internal node 1 to junction 2. -/
def exbranchB : BranchRow :=
  { zero_branch_row 0 with
    fromNode := 1, toNode := 2, vinit := 1, tinit := 1, rho := 1, area := 1, d := 1,
    length := 1 }

/-- Counterexample to claim C7: for a gas element split into two
sub-branches with endpoint absolute pressures 3, 1, 1 (constant
compressibility 1, unit velocity and temperature), the reported
`v_from_m_per_s` is not the group sum of the per-branch standard-condition
velocities divided by the segment count 2 — it is endpoint-selected, so
not every per-element quantity is a group mean. -/
theorem extract_aggregation_counterexample :
    ((BranchComponent.extract_results ⟨true, fun _ => 1, 0, fun _ => 1⟩
        [exnode0, exnode1, exnode2] [exbranchA, exbranchB] [(0, 0, 2)]).headD
        ⟨0, 0, 0, 0, 0, 0, 0⟩).v_from_m_per_s
      ≠ (v_gas_from ⟨true, fun _ => 1, 0, fun _ => 1⟩ 1 3 1
          + v_gas_from ⟨true, fun _ => 1, 0, fun _ => 1⟩ 1 1 1) / 2 ∧
    sum_by_group [exbranchA.elementIdx, exbranchB.elementIdx]
        (List.replicate 2 1) 0 = 2 := by
  constructor
  · norm_num [BranchComponent.extract_results, select_from_pit, sum_by_group,
      v_gas_from, normfactor_from, exnode0, exnode1, exnode2, exbranchA, exbranchB,
      zero_branch_row, NORMAL_PRESSURE, NORMAL_TEMPERATURE]
  · norm_num [sum_by_group, exbranchA, exbranchB, zero_branch_row]

/-- Claim C7 amended: the summed per-element quantities — mass flow,
volumetric flow and, in gas mode, the normfactors — are reported as the
group sum divided by the group segment count `n`; `mdot_to_kg_per_s` is the
exact negation of `mdot_from_kg_per_s`; an element split into two identical
segments each carrying mass flow `ρ·area·v` extracts `ρ·area·v`, not
`2·ρ·area·v`; the gas standard-condition velocity columns, however, are
endpoint-selected via `select_from_pit`, not group-averaged. -/
theorem extract_aggregation_amended
    (fluid : Fluid) (node_pit : List NodeRow) (r : BranchRow) (rs : List BranchRow)
    (el : ℚ × ℕ × ℕ) (keys mf : List ℚ) (k rho area v : ℚ) (fj tj : ℕ) :
    extract_mdot_from keys mf k = sum_by_group keys mf k / (keys.count k : ℚ) ∧
    extract_mdot_to keys mf k = -(extract_mdot_from keys mf k) ∧
    ((BranchComponent.extract_results fluid node_pit (r :: rs) [el]).headD
        ⟨0, 0, 0, 0, 0, 0, 0⟩).mdot_from_kg_per_s
      = sum_by_group ((r :: rs).map (fun b => b.elementIdx))
          ((r :: rs).map (fun b => b.loadVecNodes)) el.1
        / ((((r :: rs).map (fun b => b.elementIdx)).count el.1 : ℕ) : ℚ) ∧
    ((BranchComponent.extract_results fluid node_pit (r :: rs) [el]).headD
        ⟨0, 0, 0, 0, 0, 0, 0⟩).mdot_to_kg_per_s
      = -(((BranchComponent.extract_results fluid node_pit (r :: rs) [el]).headD
          ⟨0, 0, 0, 0, 0, 0, 0⟩).mdot_from_kg_per_s) ∧
    ((BranchComponent.extract_results fluid node_pit (r :: rs) [el]).headD
        ⟨0, 0, 0, 0, 0, 0, 0⟩).vdot_norm_m3_per_s
      = sum_by_group ((r :: rs).map (fun b => b.elementIdx))
          ((r :: rs).map (fun b => b.loadVecNodes
            / fluid.density (((node_pit.getD b.fromNode default).tinit
                + (node_pit.getD b.toNode default).tinit) / 2))) el.1
        / ((((r :: rs).map (fun b => b.elementIdx)).count el.1 : ℕ) : ℚ) ∧
    ((BranchComponent.extract_results { fluid with isGas := true } node_pit (r :: rs)
        [el]).headD ⟨0, 0, 0, 0, 0, 0, 0⟩).normfactor_from
      = sum_by_group ((r :: rs).map (fun b => b.elementIdx))
          ((r :: rs).map (fun b => normfactor_from { fluid with isGas := true } b.tinit
            ((node_pit.getD b.fromNode default).pamb
              + (node_pit.getD b.fromNode default).pinit))) el.1
        / ((((r :: rs).map (fun b => b.elementIdx)).count el.1 : ℕ) : ℚ) ∧
    ((BranchComponent.extract_results fluid node_pit
        [segment_row rho area v, segment_row rho area v] [(0, fj, tj)]).headD
        ⟨0, 0, 0, 0, 0, 0, 0⟩).mdot_from_kg_per_s = rho * area * v ∧
    ((BranchComponent.extract_results ⟨true, fun _ => 1, 0, fun _ => 1⟩
        [exnode0, exnode1, exnode2] [exbranchA, exbranchB] [(0, 0, 2)]).headD
        ⟨0, 0, 0, 0, 0, 0, 0⟩).v_from_m_per_s
      = v_gas_from ⟨true, fun _ => 1, 0, fun _ => 1⟩ 1 3 1 := by
  refine ⟨?_, ?_, ?_, ?_, ?_, ?_, ?_, ?_⟩
  · simp [extract_mdot_from, group_mean, sum_by_group_ones]
  · simp [extract_mdot_to, extract_mdot_from, group_mean, neg_div]
  · simp only [BranchComponent.extract_results]
    simp
    rw [sum_by_group_ones_len _ _ _ (by simp)]
  · simp only [BranchComponent.extract_results]
    simp [neg_div]
  · simp only [BranchComponent.extract_results]
    simp
    rw [sum_by_group_ones_len _ _ _ (by simp)]
  · simp only [BranchComponent.extract_results]
    simp
    rw [sum_by_group_ones_len _ _ _ (by simp)]
  · simp [BranchComponent.extract_results, segment_row, zero_branch_row, sum_by_group]
    ring
  · norm_num [BranchComponent.extract_results, select_from_pit,
      exnode0, exnode1, exnode2, exbranchA, exbranchB, zero_branch_row]

/-- `BranchComponent.create_pit_branch_entries` (branch_models.py, lines
79-104): on an empty component table it returns the empty row slice and
empty from/to node lists without writing; otherwise it overwrites every row
of the slice with the branch-table number in column 0 and zeros elsewhere
and then sets the velocity column to the default guess 1/10, returning the
externally looked-up from/to node lists. -/
def create_pit_branch_entries (branch_table_nr : ℚ)
    (branch_component_pit : List BranchRow) (from_nodes to_nodes : List ℕ) :
    List BranchRow × List ℕ × List ℕ :=
  if branch_component_pit.isEmpty then (branch_component_pit, [], [])
  else
    (branch_component_pit.map (fun _ => { zero_branch_row branch_table_nr with
      vinit := 1 / 10 }), from_nodes, to_nodes)

/-- Claim C10: with at least one row, `create_pit_branch_entries` sets every
branch row to the branch-table number in column 0, zeros in all other
columns and the default velocity guess 1/10 in the `VINIT` column; with an
empty component table it returns the empty row slice together with empty
from-node and to-node lists, writing nothing. -/
theorem create_pit_branch_entries_spec (branch_table_nr : ℚ) (r : BranchRow)
    (rs : List BranchRow) (from_nodes to_nodes : List ℕ) :
    create_pit_branch_entries branch_table_nr (r :: rs) from_nodes to_nodes
      = ((r :: rs).map (fun _ => (⟨branch_table_nr, 0, 0, 0, 0, 0, 0, 0, 0, 0, 1 / 10,
          0, 0, 0, 0, 0, 0, 0, 0, 0, 0, 0, 0, 0, 0, 0, 0, 0, 0, 0, 0, 0, 0, 0, 0⟩ :
            BranchRow)),
        from_nodes, to_nodes) ∧
    create_pit_branch_entries branch_table_nr [] from_nodes to_nodes = ([], [], []) := by
  constructor
  · simp [create_pit_branch_entries, zero_branch_row]
  · rfl

/-- Claim C9: an empty branch-kind row range makes the class hydraulic pass
return immediately with the state unchanged and no table entry written, and
`extract_results` returns empty per-branch results on an empty active
branch table without attempting any numeric computation. -/
theorem empty_branch_range_shortcircuit (fluid : Fluid) (fm : FrictionModel)
    (node_pit : List NodeRow) (plHook : List NodeRow → BranchRow → ℚ)
    (elements : List (ℚ × ℕ × ℕ)) :
    BranchComponent.calculate_derivatives_hydraulic fluid fm node_pit plHook []
        = (node_pit, []) ∧
    BranchComponent.extract_results fluid node_pit [] elements = [] := by
  exact ⟨rfl, rfl⟩

end Pandapipes
